import Mathlib

/-
Verification development for the android-genymotion-backend session
orchestrator.  The definitions below are a shallow embedding of the Python
source: pydantic schemas become structures, the DynamoDB table rows and the
two SQS queues become an explicit BackendState threaded through each
operation, and outcomes of external calls (EC2, Route53, the device agent)
are passed in as parameters.  Python exceptions are modelled with Except;
a try/except that logs and continues is modelled by returning the state
reached when the exception was raised.
-/

namespace AndroidBackend

/-- Compute-instance identity cached on a session (schemas.InstanceInfo). -/
structure InstanceInfo where
  instance_id : String
  instance_type : String
  deriving Repr, DecidableEq

/-- Full compute-instance view returned by the describe call
(schemas.CompleteInstanceInfo). -/
structure CompleteInstanceInfo where
  instance_id : String
  instance_type : String
  instance_state : String
  instance_ip : Option String
  instance_aws_address : Option String
  deriving Repr, DecidableEq

/-- Session record (schemas.Session).  Field defaults mirror the pydantic
defaults: ssl_configured = False, end_time = None.  The pydantic field named
instance is called instance_info here because instance is a Lean keyword. -/
structure Session where
  PK : String := "SESSION"
  SK : String
  instance_info : Option InstanceInfo
  ami_id : String
  ssl_configured : Bool := false
  user_ip : Option String := none
  browser_info : Option String := none
  start_time : String
  end_time : Option String := none
  deriving Repr, DecidableEq

/-- Liveness record (schemas.SessionPing); scheduled_for_deletion defaults
to False, exactly as in the pydantic schema. -/
structure SessionPing where
  PK : String := "SESSION#PING"
  SK : String
  instance_active : Bool
  last_accessed_on : String
  scheduled_for_deletion : Bool := false
  deriving Repr, DecidableEq

/-- Read model returned by SessionModel.get_session_by_id
(schemas.SessionWithPing): the session overlaid with the refreshed instance
view and the ping fields. -/
structure SessionWithPing where
  SK : String
  instance_info : Option CompleteInstanceInfo
  ami_id : String
  ssl_configured : Bool
  start_time : String
  end_time : Option String
  instance_active : Option Bool := none
  last_accessed_on : Option String := none
  scheduled_for_deletion : Option Bool := none
  deriving Repr, DecidableEq

/-- The persisted table rows, the set of allocated EC2 instances, and the two
SQS queues: the only shared state of the orchestrator. -/
structure BackendState where
  sessions : List Session
  pings : List SessionPing
  instances : List String
  taskQueue : List (String × String)
  terminationQueue : List String
  deriving Repr, DecidableEq

/-- Observable external effects, recorded as a trace so that ordering claims
(flag before enqueue, DNS before TLS, revocation issued) can be stated. -/
inductive Event where
  | setScheduledForDeletion (sid : String) (v : Bool)
  | enqueueTermination (sid : String)
  | enqueueSetup (sid iid : String)
  | dnsUpsert (name ip : String)
  | dnsDelete (name : String)
  | certRestPost (sid : String)
  | setSslConfigured (sid : String)
  | setInstanceActive (sid : String) (v : Bool)
  | terminateInstanceCall (iid : String)
  | setEndTime (sid : String)
  | escalateRootReq
  | toggleShell (i : Nat)
  | revokeRootReq
  deriving Repr, DecidableEq

/-- Python exception kinds that the orchestrator distinguishes. -/
inductive PyError where
  | vcpuLimitExceeded (msg : String)
  | clientError (msg : String)
  | valueError (msg : String)
  | attributeError (msg : String)
  | httpException (status : Nat) (detail : String)
  | requestException (msg : String)
  | generic (msg : String)
  deriving Repr, DecidableEq

/-- HTTP response as seen by the certificate-configuration code. -/
structure HttpResp where
  status : Nat
  text : String
  deriving Repr, DecidableEq

/-- Error response produced by the FastAPI layer (fastapi.HTTPException). -/
structure HTTPErrorResp where
  status_code : Nat
  detail : String
  deriving Repr, DecidableEq

/-- Char-list prefix test, used to model the Python str.startswith. -/
def charsPrefix : List Char → List Char → Bool
  | [], _ => true
  | _ :: _, [] => false
  | a :: as, b :: bs => a == b && charsPrefix as bs

/-- Char-list containment, used to model the Python in operator on str. -/
def charsContains (pat : List Char) : List Char → Bool
  | [] => pat.isEmpty
  | hay@(_ :: t) => charsPrefix pat hay || charsContains pat t

/-- Model of the Python expression pat in s. -/
def strContains (s pat : String) : Bool := charsContains pat.data s.data

/-- Model of the Python expression s.startswith(pat). -/
def strStartsWith (s pat : String) : Bool := charsPrefix pat.data s.data

def findSession (st : BackendState) (sid : String) : Option Session :=
  st.sessions.find? (fun s => s.SK == sid)

def findPing (st : BackendState) (sid : String) : Option SessionPing :=
  st.pings.find? (fun p => p.SK == sid)

/-- A targeted DynamoDB update_item on the ping row with the given id. -/
def mapPing (st : BackendState) (sid : String) (f : SessionPing → SessionPing) : BackendState :=
  { st with pings := st.pings.map (fun p => if p.SK == sid then f p else p) }

/-- SessionModel.domain_name: the per-session DNS name. -/
def domain_name (session_id : String) : String :=
  session_id ++ ".session.morskyi.org"

/-- SessionPingModel.update_scheduled_for_deletion: a single-field SET on the
liveness record.  It performs no read and no condition check on the current
flag value. -/
def update_scheduled_for_deletion (st : BackendState) (sid : String) (v : Bool) : BackendState :=
  mapPing st sid (fun p => { p with scheduled_for_deletion := v })

/-- SessionPingModel.update_instance_active: single-field SET of
instance_active. -/
def update_instance_active (st : BackendState) (sid : String) (v : Bool) : BackendState :=
  mapPing st sid (fun p => { p with instance_active := v })

/-- SessionPingModel.update_last_accessed: creates the ping row if missing,
otherwise sets last_accessed_on to now and instance_active to the given
value, unconditionally. -/
def update_last_accessed (st : BackendState) (sid now : String) (active : Bool) : BackendState :=
  match findPing st sid with
  | none =>
      { st with pings :=
          st.pings ++ [{ SK := sid, instance_active := active, last_accessed_on := now }] }
  | some _ => mapPing st sid (fun p => { p with last_accessed_on := now, instance_active := active })

/-- The filter expression of the inactivity scan: PK equals SESSION#PING,
instance_active is true, scheduled_for_deletion is false, and
last_accessed_on is strictly below the cutoff (DynamoDB lt on the ISO
strings, i.e. lexicographic order). -/
def pingInactiveFilter (cutoff_iso : String) (p : SessionPing) : Bool :=
  p.PK == "SESSION#PING" && p.instance_active == true &&
    p.scheduled_for_deletion == false && decide (p.last_accessed_on < cutoff_iso)

/-- SessionPingModel.get_inactive_session_pings: the paginated scan.  pages
is the sequence of pages DynamoDB returns; the while loop keeps scanning
until LastEvaluatedKey is absent, filtering every page and accumulating. -/
def get_inactive_session_pings (pages : List (List SessionPing)) (cutoff_iso : String) :
    List SessionPing :=
  pages.foldl (fun acc page => acc ++ page.filter (pingInactiveFilter cutoff_iso)) []

/-- SessionModel.end_session: looks the session record up; if present it sets
scheduled_for_deletion and then sends the termination message.  It never
reads the current value of the flag. -/
def end_session (st : BackendState) (sid : String) : BackendState × List Event :=
  match findSession st sid with
  | none => (st, [])
  | some _ =>
      let st1 := update_scheduled_for_deletion st sid true
      let st2 := { st1 with terminationQueue := st1.terminationQueue ++ [sid] }
      (st2, [Event.setScheduledForDeletion sid true, Event.enqueueTermination sid])

/-- Default message of VcpuLimitExceededException in domain.py. -/
def vcpuLimitDefaultMsg : String :=
  "You have reached your EC2 vCPU limit. Unable to create more instances at this time. Please try again later or contact support."

/-- InstanceModel.create_instance: amiFound abstracts the AMI lookup,
ec2RunResult the run_instances call (error carries the boto error text).  A
boto error whose text contains VcpuLimitExceeded is re-raised as the
distinct VcpuLimitExceededException; any other boto error is re-raised
unchanged. -/
def create_instance (amiFound : Bool) (ec2RunResult : Except String InstanceInfo) :
    Except PyError InstanceInfo :=
  if amiFound then
    match ec2RunResult with
    | Except.ok info => Except.ok info
    | Except.error msg =>
        if strContains msg "VcpuLimitExceeded" then
          Except.error (PyError.vcpuLimitExceeded vcpuLimitDefaultMsg)
        else Except.error (PyError.clientError msg)
  else Except.error (PyError.valueError "AMI not found")

/-- SessionModel.create_session.  sid is the generated ksuid, now the
datetime captured during the call, instanceResult the outcome of
create_instance, enqueueOk whether sqs.send_message succeeds.  On an
enqueue failure the except clause logs and re-raises; nothing persisted
before the failure is rolled back. -/
def create_session (st : BackendState) (ami_id : String)
    (user_ip browser_info : Option String) (sid now : String)
    (instanceResult : Except PyError InstanceInfo) (enqueueOk : Bool) :
    Except (PyError × BackendState) (Session × BackendState) :=
  match instanceResult with
  | Except.error e => Except.error (e, st)
  | Except.ok info =>
      let st0 := { st with instances := st.instances ++ [info.instance_id] }
      let session : Session :=
        { SK := sid, instance_info := some info, ami_id := ami_id,
          user_ip := user_ip, browser_info := browser_info, start_time := now }
      let st1 := { st0 with sessions := st0.sessions ++ [session] }
      let ping : SessionPing :=
        { SK := sid, instance_active := true, last_accessed_on := now }
      let st2 := { st1 with pings := st1.pings ++ [ping] }
      if enqueueOk then
        Except.ok (session, { st2 with taskQueue := st2.taskQueue ++ [(sid, info.instance_id)] })
      else Except.error (PyError.generic "sqs send_message failed", st2)

/-- Shell-fallback success test in configure_instance_certificate: HTTP 200
or a body that starts with the service-start banner. -/
def shellFallbackOk (s : HttpResp) : Bool :=
  s.status == 200 || strStartsWith s.text "Starting service: Intent"

/-- SessionModel.configure_instance_certificate, reduced to the value the
ssl_configured field of the session holds afterwards.  restResult none
models the certificate POST raising after its retries (caught by the outer
except, so no update); shellResult none models execute_shell_command
raising (likewise caught).  On a 404 the shell fallback runs; the field is
then set iff success or str(status).startswith(2). -/
def configure_instance_certificate (restResult shellResult : Option HttpResp)
    (prev_ssl_configured : Bool) : Bool :=
  match restResult with
  | none => prev_ssl_configured
  | some r =>
      let successOpt : Option Bool :=
        if r.status == 404 then
          match shellResult with
          | none => none
          | some s => some (shellFallbackOk s)
        else some false
      match successOpt with
      | none => prev_ssl_configured
      | some success =>
          if success || strStartsWith (Nat.repr r.status) "2" then true
          else prev_ssl_configured

/-- SessionModel has no method wait_for_genymotion_api: the name is defined
nowhere in the repository, so the attribute lookup performed by
tasks_handler raises AttributeError at run time. -/
def wait_for_genymotion_api_call : Except PyError Unit :=
  Except.error (PyError.attributeError
    "SessionModel object has no attribute wait_for_genymotion_api")

/-- tasks_handler.handler, one SQS setup record.  waitResult abstracts
wait_for_instance_running (none = timeout, the record is skipped).  The
whole body sits in a per-record try/except, so an exception is logged and
the loop moves on: the function returns the state and trace reached when
the exception was raised. -/
def tasks_handler_record (st : BackendState) (sid : String)
    (waitResult : Option CompleteInstanceInfo)
    (restResult shellResult : Option HttpResp) : BackendState × List Event :=
  match waitResult with
  | none => (st, [])
  | some info =>
      let tr1 : List Event := [Event.dnsUpsert (domain_name sid) (info.instance_ip.getD "")]
      match wait_for_genymotion_api_call with
      | Except.error _ => (st, tr1)
      | Except.ok _ =>
          let ssl := configure_instance_certificate restResult shellResult false
          let st2 :=
            if ssl then
              { st with sessions :=
                  st.sessions.map (fun s => if s.SK == sid then { s with ssl_configured := true } else s) }
            else st
          (st2, tr1 ++ [Event.certRestPost sid] ++ if ssl then [Event.setSslConfigured sid] else [])

/-- SessionModel.get_session_by_id: every exception inside is caught and the
function falls through returning None; a missing record or a record without
cached instance info makes the inner attribute access raise, hence None.
describe abstracts InstanceModel.get_instance_info (none = the provider
reports the instance not found, or the describe call failed). -/
def get_session_by_id (st : BackendState) (describe : String → Option CompleteInstanceInfo)
    (sid : String) : Option SessionWithPing :=
  match findSession st sid with
  | none => none
  | some s =>
      match s.instance_info with
      | none => none
      | some info =>
          let ping := findPing st sid
          some { SK := s.SK, instance_info := describe info.instance_id, ami_id := s.ami_id,
                 ssl_configured := s.ssl_configured, start_time := s.start_time,
                 end_time := s.end_time,
                 instance_active := ping.map (fun p => p.instance_active),
                 last_accessed_on := ping.map (fun p => p.last_accessed_on),
                 scheduled_for_deletion := ping.map (fun p => p.scheduled_for_deletion) }

/-- session_termination_handler.update_session_status: its first statement
builds the update key from session.session_id, but the Session schema has
no field session_id (the id field is SK), so the attribute access raises
AttributeError before either table update executes. -/
def update_session_status (st : BackendState) : Except (PyError × BackendState) BackendState :=
  Except.error (PyError.attributeError "Session object has no attribute session_id", st)

/-- session_termination_handler.handler, one record.  The body sits in a
per-record try/except, so no exception propagates to the dispatcher: the
function is total and returns the state and trace reached when an exception
was raised.  cleanupOk, uploadOk abstract the device cleanup and the
recording upload (each in its own try/except, failures only logged);
terminateOk whether the EC2 terminate call succeeds. -/
def termination_handler_record (st : BackendState)
    (describe : String → Option CompleteInstanceInfo)
    (cleanupOk uploadOk terminateOk : Bool) (sid : String) : BackendState × List Event :=
  let body : Except (PyError × BackendState × List Event) (BackendState × List Event) :=
    match get_session_by_id st describe sid with
    | none =>
        match update_session_status st with
        | Except.error (e, st1) => Except.error (e, st1, [])
        | Except.ok st1 => Except.ok (st1, [])
    | some sw =>
        match sw.instance_info with
        | none =>
            match update_session_status st with
            | Except.error (e, st1) => Except.error (e, st1, [])
            | Except.ok st1 => Except.ok (st1, [])
        | some ci =>
            let _ := cleanupOk
            let _ := uploadOk
            let (st1, tr1) :=
              if terminateOk then
                (update_instance_active st sid false,
                 [Event.terminateInstanceCall ci.instance_id, Event.setInstanceActive sid false])
              else (st, [])
            let tr2 := tr1 ++ [Event.dnsDelete (domain_name sid)]
            match update_session_status st1 with
            | Except.error (e, st2) => Except.error (e, st2, tr2)
            | Except.ok st2 => Except.ok (st2, tr2)
  match body with
  | Except.ok r => r
  | Except.error (_, st1, tr) => (st1, tr)

/-- String form fastapi gives an HTTPException caught as a generic
Exception, and the plain message of the other exception kinds. -/
def strOfPyError : PyError → String
  | PyError.vcpuLimitExceeded m => m
  | PyError.clientError m => m
  | PyError.valueError m => m
  | PyError.attributeError m => m
  | PyError.httpException c d => Nat.repr c ++ ": " ++ d
  | PyError.requestException m => m
  | PyError.generic m => m

/-- api.create_session (POST sessions random).  amis is the stored AMI id
list, createResult the outcome the domain create_session produces for the
chosen AMI.  The try/except chain is mirrored exactly: the 404 HTTPException
raised inside the try when the AMI list is empty is itself an Exception, so
it is caught by the blanket clause and re-raised as a 500. -/
def api_create_session (amis : List String) (createResult : Except PyError Session) :
    Except HTTPErrorResp Session :=
  let body : Except PyError Session :=
    if amis.isEmpty then Except.error (PyError.httpException 404 "No AMIs found")
    else createResult
  match body with
  | Except.ok s => Except.ok s
  | Except.error (PyError.vcpuLimitExceeded m) =>
      Except.error { status_code := 503, detail := m }
  | Except.error e => Except.error { status_code := 500, detail := strOfPyError e }

/-- api.get_session (GET sessions by id): on a successful read it calls
update_last_accessed with the default instance_active = True and returns
200; when the read yields None, the 404 HTTPException raised inside the try
is caught by the blanket except and becomes a 500. -/
def api_get_session (st : BackendState) (describe : String → Option CompleteInstanceInfo)
    (sid now : String) : BackendState × Nat :=
  match get_session_by_id st describe sid with
  | some _ => (update_last_accessed st sid now true, 200)
  | none => (st, 500)

/-- Root-access property of the device (persist.sys.root_access). -/
structure DeviceState where
  root_access : Nat
  deriving Repr, DecidableEq

/-- ApplicationManager.set_internet_access.  escalateOk and revokeOk say
whether the two root-access property requests succeed; each of those two
requests is wrapped in its own try/except, so its failure is only logged.
toggleOk i says whether the i-th of the six svc shell commands (three
iterations of data then wifi) completes without raising.
execute_shell_command raises on any HTTP-level failure and the loop has no
try/except, so the first raising toggle propagates out (the error case),
carrying the device state at that point; the revocation request is then
never issued. -/
def set_internet_access (escalateOk revokeOk : Bool) (toggleOk : Nat → Bool)
    (d : DeviceState) : Except (DeviceState × List Event) (DeviceState × List Event) :=
  let d1 := if escalateOk then { d with root_access := 3 } else d
  let tr0 : List Event := [Event.escalateRootReq]
  match (List.range 6).find? (fun i => !toggleOk i) with
  | some k => Except.error (d1, tr0 ++ (List.range (k + 1)).map Event.toggleShell)
  | none =>
      let d2 := if revokeOk then { d1 with root_access := 0 } else d1
      Except.ok (d2, tr0 ++ (List.range 6).map Event.toggleShell ++ [Event.revokeRootReq])

/-
Concrete states used by counterexamples and witnesses.
-/

/-- State with one stored session s1 and its fresh liveness record. -/
def c1State : BackendState :=
  { sessions := [{ SK := "s1", instance_info := some { instance_id := "i-1", instance_type := "m5" },
                   ami_id := "ami-a", start_time := "2024-01-01T00:00:00" }],
    pings := [{ SK := "s1", instance_active := true, last_accessed_on := "2024-01-01T00:00:00" }],
    instances := ["i-1"], taskQueue := [], terminationQueue := [] }

/-- State with one stored session s2 awaiting its setup task. -/
def c2State : BackendState :=
  { sessions := [{ SK := "s2", instance_info := some { instance_id := "i-2", instance_type := "m5" },
                   ami_id := "ami-a", start_time := "2024-01-01T00:00:00" }],
    pings := [{ SK := "s2", instance_active := true, last_accessed_on := "2024-01-01T00:00:00" }],
    instances := ["i-2"], taskQueue := [("s2", "i-2")], terminationQueue := [] }

/-- The instance view wait_for_instance_running returns for s2: running with
an assigned address. -/
def c2Info : CompleteInstanceInfo :=
  { instance_id := "i-2", instance_type := "m5", instance_state := "running",
    instance_ip := some "1.2.3.4", instance_aws_address := some "aws" }

/-- State with one stored session s3 whose instance the provider no longer
knows, and its still-active liveness record. -/
def c3State : BackendState :=
  { sessions := [{ SK := "s3", instance_info := some { instance_id := "i-3", instance_type := "m5" },
                   ami_id := "ami-a", start_time := "2024-01-01T00:00:00" }],
    pings := [{ SK := "s3", instance_active := true, last_accessed_on := "2024-01-01T00:00:00" }],
    instances := [], taskQueue := [], terminationQueue := ["s3"] }

/-- Device whose root-access property starts revoked. -/
def c4Device : DeviceState := { root_access := 0 }

/-- Session value returned when the domain layer succeeds (C7). -/
def c7Session : Session :=
  { SK := "s7", instance_info := some { instance_id := "i-7", instance_type := "m5" },
    ami_id := "ami-a", start_time := "2024-01-01T00:00:00" }

/-- State for the liveness-refresh claim: session s9 exists and its liveness
record is inactive, as after a termination. -/
def c9State : BackendState :=
  { sessions := [{ SK := "s9", instance_info := some { instance_id := "i-9", instance_type := "m5" },
                   ami_id := "ami-a", start_time := "2024-01-01T00:00:00" }],
    pings := [{ SK := "s9", instance_active := false, last_accessed_on := "2024-01-01T00:00:00" }],
    instances := [], taskQueue := [], terminationQueue := [] }

def c9Describe : String → Option CompleteInstanceInfo := fun _ => none

/-
Helper lemmas shared between claims.
-/

/-- find? commutes with an id-preserving targeted update of the found row. -/
lemma find?_map_sk (l : List SessionPing) (sid : String) (f : SessionPing → SessionPing)
    (hf : ∀ p, (f p).SK = p.SK) (p : SessionPing)
    (h : l.find? (fun q => q.SK == sid) = some p) :
    (l.map (fun q => if q.SK == sid then f q else q)).find? (fun q => q.SK == sid)
      = some (f p) := by
  induction l with
  | nil => simp at h
  | cons a t ih =>
    cases ha : (a.SK == sid) with
    | true =>
      have hfind : (a :: t).find? (fun q => q.SK == sid) = some a :=
        List.find?_cons_of_pos t ha
      rw [hfind] at h
      have hap : a = p := Option.some.inj h
      have hga : (if (a.SK == sid) = true then f a else a) = f a := if_pos ha
      have hpred : ((f a).SK == sid) = true := by rw [hf a]; exact ha
      rw [List.map_cons]
      have hstep :
          ((if (a.SK == sid) = true then f a else a)
              :: (t.map (fun q => if q.SK == sid then f q else q))).find?
            (fun q => q.SK == sid)
          = some (if (a.SK == sid) = true then f a else a) :=
        List.find?_cons_of_pos _ (by rw [hga]; exact hpred)
      rw [hstep, hga, hap]
    | false =>
      have hfind : (a :: t).find? (fun q => q.SK == sid)
          = t.find? (fun q => q.SK == sid) :=
        List.find?_cons_of_neg t (by simp [ha])
      rw [hfind] at h
      have hga : (if (a.SK == sid) = true then f a else a) = a := if_neg (by simp [ha])
      rw [List.map_cons]
      have hstep :
          ((if (a.SK == sid) = true then f a else a)
              :: (t.map (fun q => if q.SK == sid then f q else q))).find?
            (fun q => q.SK == sid)
          = (t.map (fun q => if q.SK == sid then f q else q)).find?
              (fun q => q.SK == sid) :=
        List.find?_cons_of_neg _ (by rw [hga]; simp [ha])
      rw [hstep]
      exact ih h

/-- Folding page-wise filtering over all pages equals filtering the joined
record set. -/
lemma foldl_append_filter (q : SessionPing → Bool) (pages : List (List SessionPing))
    (a : List SessionPing) :
    pages.foldl (fun acc page => acc ++ page.filter q) a = a ++ (pages.flatten).filter q := by
  induction pages generalizing a with
  | nil => simp
  | cons pg t ih => simp [ih, List.filter_append, List.append_assoc]

/-
C1 — end_session idempotence.
-/

/-- C1 counterexample: with session s1 stored, two end_session calls enqueue
two termination tasks, refuting the claimed at-most-one guarantee: the flag
is written, but end_session never reads it. -/
theorem c1_two_calls_enqueue_twice :
    (findSession c1State "s1").isSome = true ∧
    ¬ ((end_session (end_session c1State "s1").1 "s1").1.terminationQueue.length ≤ 1) := by
  decide

/-- Evaluation of end_session on a state in which the session is stored. -/
lemma end_session_eq (st : BackendState) (sid : String)
    (s : Session) (h : findSession st sid = some s) :
    end_session st sid
      = ({ st with
            pings := st.pings.map
              (fun p => if p.SK == sid then { p with scheduled_for_deletion := true } else p),
            terminationQueue := st.terminationQueue ++ [sid] },
         [Event.setScheduledForDeletion sid true, Event.enqueueTermination sid]) := by
  unfold end_session
  rw [h]
  rfl

/-- C1 (amended): each end_session call on a stored session sets
scheduled_for_deletion strictly before the enqueue (trace order), marks the
flag in the stored ping, and appends exactly one termination task, so two
calls append two tasks. -/
theorem end_session_flag_before_enqueue (st : BackendState) (sid : String)
    (s : Session) (h : findSession st sid = some s) :
    (end_session st sid).2
        = [Event.setScheduledForDeletion sid true, Event.enqueueTermination sid] ∧
    (end_session st sid).1.terminationQueue = st.terminationQueue ++ [sid] ∧
    (∀ p, findPing st sid = some p →
      findPing (end_session st sid).1 sid = some { p with scheduled_for_deletion := true }) ∧
    (end_session (end_session st sid).1 sid).1.terminationQueue
        = st.terminationQueue ++ [sid, sid] := by
  have h1 := end_session_eq st sid s h
  have h2 : findSession (end_session st sid).1 sid = some s := by
    rw [h1]
    unfold findSession at h ⊢
    exact h
  have h3 := end_session_eq (end_session st sid).1 sid s h2
  refine ⟨by rw [h1], by rw [h1], ?_, ?_⟩
  · intro p hp
    rw [h1]
    unfold findPing at hp ⊢
    exact find?_map_sk st.pings sid (fun q => { q with scheduled_for_deletion := true })
      (fun _ => rfl) p hp
  · rw [h3]
    show (end_session st sid).1.terminationQueue ++ [sid] = st.terminationQueue ++ [sid, sid]
    rw [h1]
    show (st.terminationQueue ++ [sid]) ++ [sid] = st.terminationQueue ++ [sid, sid]
    simp

/-- C1 witness: the amended statement evaluated on the concrete state. -/
theorem end_session_flag_before_enqueue_witness :
    (end_session c1State "s1").2
        = [Event.setScheduledForDeletion "s1" true, Event.enqueueTermination "s1"] ∧
    (end_session c1State "s1").1.terminationQueue = c1State.terminationQueue ++ ["s1"] ∧
    (∀ p, findPing c1State "s1" = some p →
      findPing (end_session c1State "s1").1 "s1"
        = some { p with scheduled_for_deletion := true }) ∧
    (end_session (end_session c1State "s1").1 "s1").1.terminationQueue
        = c1State.terminationQueue ++ ["s1", "s1"] :=
  end_session_flag_before_enqueue c1State "s1"
    { SK := "s1", instance_info := some { instance_id := "i-1", instance_type := "m5" },
      ami_id := "ami-a", start_time := "2024-01-01T00:00:00" } (by decide)

/-
C2 — setup handler ordering: DNS, then TLS, then active.
-/

/-- C2: for a setup task whose instance reaches running with an address, the
handler performs the DNS upsert and then stops: the call to the undefined
method wait_for_genymotion_api raises AttributeError, the per-record except
swallows it, and the TLS negotiation step is never reached — even though
the device agent would have answered 200.  The state is unchanged and no
certificate request or ssl_configured update appears in the trace. -/
theorem c2_setup_handler_never_reaches_tls :
    tasks_handler_record c2State "s2" (some c2Info)
        (some { status := 200, text := "OK" }) none
      = (c2State, [Event.dnsUpsert (domain_name "s2") "1.2.3.4"]) ∧
    Event.certRestPost "s2"
        ∉ (tasks_handler_record c2State "s2" (some c2Info)
            (some { status := 200, text := "OK" }) none).2 ∧
    Event.setSslConfigured "s2"
        ∉ (tasks_handler_record c2State "s2" (some c2Info)
            (some { status := 200, text := "OK" }) none).2 := by
  refine ⟨rfl, by decide, by decide⟩

/-
C3 — termination of a session whose instance is already gone.
-/

/-- C3: when the describe call reports the instance gone, the termination
handler returns without any exception reaching the dispatcher, but it
leaves the state untouched: the liveness record keeps instance_active =
true, end_time stays unset, and no DNS delete is attempted — the early
branch calls update_session_status, which raises on the nonexistent
attribute session_id, and the per-record except swallows it. -/
theorem c3_termination_gone_instance :
    termination_handler_record c3State (fun _ => none) true true true "s3" = (c3State, []) ∧
    findPing c3State "s3"
      = some { SK := "s3", instance_active := true,
               last_accessed_on := "2024-01-01T00:00:00" } ∧
    (findSession c3State "s3").all (fun s => s.end_time == none) = true := by
  refine ⟨rfl, rfl, rfl⟩

/-
C7 — error mapping of session creation.
-/

/-- C7: a boto error mentioning VcpuLimitExceeded becomes the distinct
exception and the request layer maps it to 503, and a generic error maps to
500; but with an empty AMI table the 404 HTTPException raised inside the
try is caught by the blanket except clause and re-raised as a 500 whose
detail merely embeds the original message — not a 404-equivalent. -/
theorem api_create_session_error_mapping :
    create_instance true
        (Except.error "An error occurred (VcpuLimitExceeded) when calling RunInstances")
      = Except.error (PyError.vcpuLimitExceeded vcpuLimitDefaultMsg) ∧
    api_create_session ["ami-a"] (Except.error (PyError.vcpuLimitExceeded vcpuLimitDefaultMsg))
      = Except.error { status_code := 503, detail := vcpuLimitDefaultMsg } ∧
    api_create_session [] (Except.ok c7Session)
      = Except.error { status_code := 500, detail := "404: No AMIs found" } ∧
    api_create_session ["ami-a"] (Except.error (PyError.clientError "boom"))
      = Except.error { status_code := 500, detail := "boom" } := by
  refine ⟨rfl, rfl, rfl, rfl⟩

/-
C4 — root-access escalation is scoped.
-/

/-- C4 counterexample: with the first toggle shell command raising, the call
completes by propagating the exception while the root-access property is
still at 3 and no revocation request was ever issued, refuting the claim
that the property is back at its revoked value on every path. -/
theorem c4_toggle_failure_skips_revocation :
    set_internet_access true true (fun _ => false) c4Device
      = Except.error ({ root_access := 3 }, [Event.escalateRootReq, Event.toggleShell 0]) ∧
    Event.revokeRootReq ∉ [Event.escalateRootReq, Event.toggleShell 0] ∧
    ({ root_access := 3 } : DeviceState).root_access ≠ 0 := by
  refine ⟨rfl, by decide, by decide⟩

/-- C4 (amended): whenever the six toggle shell commands all complete
without raising, set_internet_access completes normally, the revocation
request is always issued (even if escalation had failed), and when the
revocation request succeeds the property is 0 on completion; a raising
toggle command instead propagates and skips revocation. -/
theorem set_internet_access_revokes_after_toggles (e r : Bool) (tOk : Nat → Bool)
    (d : DeviceState) (h : ∀ i, i < 6 → tOk i = true) :
    ∃ d2 tr, set_internet_access e r tOk d = Except.ok (d2, tr) ∧
      Event.revokeRootReq ∈ tr ∧ (r = true → d2.root_access = 0) := by
  have hfind : (List.range 6).find? (fun i => !tOk i) = none := by
    rw [List.find?_eq_none]
    intro x hx
    simp [h x (List.mem_range.mp hx)]
  have heq : set_internet_access e r tOk d
      = Except.ok
          ((if r then { root_access := 0 }
            else if e then { d with root_access := 3 } else d),
           [Event.escalateRootReq] ++ (List.range 6).map Event.toggleShell
             ++ [Event.revokeRootReq]) := by
    unfold set_internet_access
    rw [hfind]
  refine ⟨_, _, heq, by simp, ?_⟩
  intro hr
  subst hr
  rfl

/-- C4 witness: the amended statement on a concrete device with all toggles
succeeding. -/
theorem set_internet_access_revokes_after_toggles_witness :
    ∃ d2 tr, set_internet_access true true (fun _ => true) c4Device = Except.ok (d2, tr) ∧
      Event.revokeRootReq ∈ tr ∧ (true = true → d2.root_access = 0) :=
  set_internet_access_revokes_after_toggles true true (fun _ => true) c4Device
    (fun _ _ => rfl)

/-
C5 — the inactivity sweep selection.
-/

/-- C5: over every paginated record set and cutoff, a ping is selected by
the sweep scan iff it lies on some page and satisfies exactly the filter:
liveness partition, instance_active true, scheduled_for_deletion false, and
last_accessed_on strictly below the cutoff.  Strictness gives the boundary:
a record equal to the cutoff is not selected; every page is scanned, not
just the first. -/
theorem get_inactive_session_pings_exact (pages : List (List SessionPing))
    (cutoff_iso : String) (p : SessionPing) :
    p ∈ get_inactive_session_pings pages cutoff_iso ↔
      (p ∈ pages.flatten ∧ p.PK = "SESSION#PING" ∧ p.instance_active = true ∧
       p.scheduled_for_deletion = false ∧ p.last_accessed_on < cutoff_iso) := by
  unfold get_inactive_session_pings
  rw [foldl_append_filter]
  simp only [List.nil_append, List.mem_filter, pingInactiveFilter, Bool.and_eq_true,
    beq_iff_eq, decide_eq_true_eq, and_assoc]

/-
C6 — postcondition of a successful create_session.
-/

/-- C6: when instance creation and the enqueue succeed, create_session
returns the new session in its initial provisioning state (end_time unset,
ssl_configured false), persists it, persists a fresh liveness record with
last_accessed_on = now, instance_active = true, scheduled_for_deletion =
false, and appends exactly one setup task carrying the session id and the
instance id. -/
theorem create_session_initial_state (st : BackendState) (ami_id : String)
    (user_ip browser_info : Option String) (sid now : String) (info : InstanceInfo) :
    ∃ s st2,
      create_session st ami_id user_ip browser_info sid now (Except.ok info) true
        = Except.ok (s, st2) ∧
      s.SK = sid ∧ s.end_time = none ∧ s.ssl_configured = false ∧
      st2.sessions = st.sessions ++ [s] ∧
      st2.pings = st.pings
        ++ [{ SK := sid, instance_active := true, last_accessed_on := now }] ∧
      st2.taskQueue = st.taskQueue ++ [(sid, info.instance_id)] ∧
      st2.terminationQueue = st.terminationQueue :=
  ⟨_, _, rfl, rfl, rfl, rfl, rfl, rfl, rfl, rfl⟩

/-
C8 — when ssl_configured is set.
-/

/-- Condition under which the spec says the TLS step marks the session:
either the certificate REST request came back 2xx, or it came back 404 and
the shell fallback succeeded. -/
def ssl_update_spec (restResult shellResult : Option HttpResp) : Bool :=
  match restResult with
  | none => false
  | some r =>
      decide (200 ≤ r.status ∧ r.status ≤ 299) ||
        (r.status == 404 &&
          (match shellResult with
           | some s => shellFallbackOk s
           | none => false))

set_option maxRecDepth 8000 in
/-- Decimal representations starting with the digit 2 are exactly the 2xx
statuses, within the HTTP status range. -/
lemma startsWith_two_eq :
    ∀ s : Nat, s < 600 → 100 ≤ s →
      strStartsWith (Nat.repr s) "2" = decide (200 ≤ s ∧ s ≤ 299) := by
  decide

/-- C8: for every REST outcome in the HTTP status range, every shell
outcome and every prior field value, the ssl_configured field afterwards
equals true exactly when the spec condition holds, and is left unchanged in
every other outcome (including both requests raising). -/
theorem configure_instance_certificate_iff (restResult shellResult : Option HttpResp)
    (prev : Bool)
    (hb : restResult.all (fun r => decide (100 ≤ r.status) && decide (r.status < 600)) = true) :
    configure_instance_certificate restResult shellResult prev
      = (ssl_update_spec restResult shellResult || prev) := by
  cases restResult with
  | none => rfl
  | some r =>
    obtain ⟨h1, h6⟩ : 100 ≤ r.status ∧ r.status < 600 := by simpa using hb
    have hsw := startsWith_two_eq r.status h6 h1
    by_cases h404 : r.status = 404
    · cases r with
    | mk rs rt =>
      simp only at h404
      subst h404
      have hns : strStartsWith (Nat.repr 404) "2" = false := by decide
      cases shellResult with
      | none => simp [configure_instance_certificate, ssl_update_spec]
      | some s =>
          cases hfb : shellFallbackOk s <;>
            simp [configure_instance_certificate, ssl_update_spec, hfb, hns]
    · have hne : (r.status == 404) = false := by
        simp [h404]
      cases hdec : decide (200 ≤ r.status ∧ r.status ≤ 299) <;>
        simp [configure_instance_certificate, ssl_update_spec, hne, hsw, hdec]

/-- C8 witness: a 2xx REST response sets the field. -/
theorem configure_instance_certificate_iff_witness :
    configure_instance_certificate (some { status := 200, text := "OK" }) none false
      = (ssl_update_spec (some { status := 200, text := "OK" }) none || false) ∧
    configure_instance_certificate (some { status := 200, text := "OK" }) none false = true :=
  ⟨configure_instance_certificate_iff (some { status := 200, text := "OK" }) none false
      (by decide),
   by decide⟩

/-
C9 — GET session refreshes and re-activates liveness.
-/

/-- C9: a successful read through the GET-session endpoint answers 200 and
rewrites the liveness record of the session to last_accessed_on = now and
instance_active = true unconditionally — the prior ping value p is
arbitrary, in particular it may carry instance_active = false. -/
theorem api_get_session_reactivates (st : BackendState)
    (describe : String → Option CompleteInstanceInfo) (sid now : String)
    (s : Session) (info : InstanceInfo) (p : SessionPing)
    (hs : findSession st sid = some s) (hi : s.instance_info = some info)
    (hp : findPing st sid = some p) :
    (api_get_session st describe sid now).2 = 200 ∧
    findPing (api_get_session st describe sid now).1 sid
      = some { p with last_accessed_on := now, instance_active := true } := by
  have hget : (get_session_by_id st describe sid).isSome = true := by
    simp [get_session_by_id, hs, hi]
  obtain ⟨sw, hsw⟩ := Option.isSome_iff_exists.mp hget
  have happ : api_get_session st describe sid now
      = (update_last_accessed st sid now true, 200) := by
    unfold api_get_session
    rw [hsw]
  rw [happ]
  refine ⟨rfl, ?_⟩
  have hupd : update_last_accessed st sid now true
      = mapPing st sid (fun q => { q with last_accessed_on := now, instance_active := true }) := by
    unfold update_last_accessed
    rw [hp]
  rw [hupd]
  unfold findPing mapPing
  exact find?_map_sk st.pings sid
    (fun q => { q with last_accessed_on := now, instance_active := true })
    (fun _ => rfl) p hp

/-- C9 witness: on a state whose liveness record is inactive (as after a
termination), the read answers 200 and flips instance_active back to true
with a fresh last_accessed_on. -/
theorem api_get_session_reactivates_witness :
    (api_get_session c9State c9Describe "s9" "2024-01-02T00:00:00").2 = 200 ∧
    findPing (api_get_session c9State c9Describe "s9" "2024-01-02T00:00:00").1 "s9"
      = some { SK := "s9", instance_active := true,
               last_accessed_on := "2024-01-02T00:00:00" } :=
  api_get_session_reactivates c9State c9Describe "s9" "2024-01-02T00:00:00"
    { SK := "s9", instance_info := some { instance_id := "i-9", instance_type := "m5" },
      ami_id := "ami-a", start_time := "2024-01-01T00:00:00" }
    { instance_id := "i-9", instance_type := "m5" }
    { SK := "s9", instance_active := false, last_accessed_on := "2024-01-01T00:00:00" }
    rfl rfl rfl

/-
C10 — create_session is not atomic on enqueue failure.
-/

/-- C10: when the instance is created and both records persisted but the
setup-task send fails, create_session propagates the error while the new
session record, the new liveness record and the allocated instance are all
still present in the final state, and no setup task was enqueued — nothing
is rolled back. -/
theorem create_session_no_rollback (st : BackendState) (ami_id : String)
    (user_ip browser_info : Option String) (sid now : String) (info : InstanceInfo) :
    ∃ e st2,
      create_session st ami_id user_ip browser_info sid now (Except.ok info) false
        = Except.error (e, st2) ∧
      (∃ s, st2.sessions = st.sessions ++ [s] ∧ s.SK = sid ∧ s.instance_info = some info) ∧
      st2.pings = st.pings
        ++ [{ SK := sid, instance_active := true, last_accessed_on := now }] ∧
      st2.instances = st.instances ++ [info.instance_id] ∧
      st2.taskQueue = st.taskQueue ∧
      st2.terminationQueue = st.terminationQueue :=
  ⟨_, _, rfl, ⟨_, rfl, rfl, rfl⟩, rfl, rfl, rfl, rfl⟩

end AndroidBackend
